import Mathlib

/-!
Verification of the Express project generator (`pg.py`).

The script manipulates the filesystem through `os.makedirs`, `open(...,'w')`
and `f.write`.  We embed each operation as a pure description (`FsOp`), each
Python function that touches the disk as the list of operations it performs
(its trace), and give the traces meaning through a small interpreter
(`runOp`/`runTrace`) over an explicit filesystem state (`Fs`).  Python string
methods used by the script (`str.lower`, `str.capitalize`, `str.strip`,
`os.path.dirname`, `os.path.join`) are modelled for ASCII text, which is the
only text the script generates.  External-process effects (`pnpm install`,
`pnpm prisma generate`), the self-copy utility and console printing are
treated as external collaborators and do not appear in the traces.
-/

/-- ASCII model of Python `str.lower()`. -/
def pyLower (s : String) : String := ⟨s.data.map Char.toLower⟩

/-- ASCII model of Python `str.capitalize()`: the first character is
upper-cased and every remaining character is lower-cased. -/
def pyCapitalize (s : String) : String :=
  match s.data with
  | [] => ""
  | c :: rest => ⟨Char.toUpper c :: rest.map Char.toLower⟩

/-- Python whitespace characters, as recognised by `str.strip()`. -/
def pySpace (c : Char) : Bool :=
  c == ' ' || c == '\t' || c == '\n' || c == '\r' || c == '\x0b' || c == '\x0c'

/-- Model of Python `str.strip()`: removes leading and trailing whitespace. -/
def pyStrip (s : String) : String :=
  ⟨((s.data.dropWhile pySpace).reverse.dropWhile pySpace).reverse⟩

/-- Model of `os.path.dirname`: everything strictly before the last `/`
(empty when the path has no `/`). -/
def pyDirname (p : String) : String :=
  ⟨((p.data.reverse.dropWhile (fun c => c != '/')).tail).reverse⟩

/-- Model of `os.path.join a b` in the only case the script exercises:
`a` non-empty without a trailing slash and `b` relative. -/
def osJoin (a b : String) : String := a ++ "/" ++ b

/-- Boolean test that `p` is a prefix of `s`, used to inspect generated text. -/
def strHasPrefix (p s : String) : Bool := p.data.isPrefixOf s.data

/-- A single filesystem effect performed by the script: `os.makedirs(path,
exist_ok=True)` or `open(path, 'w'); f.write(content)`. -/
inductive FsOp where
  | mkdirAll (path : String)
  | write (path : String) (content : String)
deriving DecidableEq

/-- Filesystem state: the set of existing directories and the files with
their contents. -/
structure Fs where
  dirs : List String
  files : List (String × String)
deriving DecidableEq

/-- The Python exceptions the script can die of in our model:
`FileNotFoundError` from `open(...,'w')` when the parent directory is
missing, and `EOFError` from `input()` when stdin is exhausted. -/
inductive PyExc where
  | fileNotFound (path : String)
  | eofError
deriving DecidableEq

/-- Iterated `pyDirname`, fuel-bounded: the chain of ancestors created by
`os.makedirs(p, exist_ok=True)`. -/
def dirClosure : Nat → String → List String
  | 0, p => [p]
  | n + 1, p => p :: dirClosure n (pyDirname p)

/-- All directories brought into existence by `os.makedirs(p, exist_ok=True)`:
`p` together with its ancestors. -/
def mkdirAllDirs (p : String) : List String := dirClosure p.length p

/-- Overwrite-in-place update of the file table, modelling that writing an
existing path replaces its content and writing a fresh path creates it. -/
def setFile : List (String × String) → String → String → List (String × String)
  | [], p, c => [(p, c)]
  | (q, d) :: rest, p, c => if q = p then (p, c) :: rest else (q, d) :: setFile rest p c

/-- One step of the filesystem interpreter.  `mkdirAll` never fails
(`exist_ok=True`) and touches no file; `write` requires the parent directory
to exist, as `open(path, 'w')` does. -/
def runOp (fs : Fs) : FsOp → Except PyExc Fs
  | .mkdirAll p => .ok { fs with dirs := mkdirAllDirs p ++ fs.dirs }
  | .write p c =>
    if pyDirname p ∈ fs.dirs then .ok { fs with files := setFile fs.files p c }
    else .error (.fileNotFound p)

/-- Run a trace of filesystem effects; the first failure aborts, mirroring an
uncaught Python exception. -/
def runTrace (fs : Fs) : List FsOp → Except PyExc Fs
  | [] => .ok fs
  | op :: rest =>
    match runOp fs op with
    | .ok fs' => runTrace fs' rest
    | .error e => .error e

/-- The path an operation targets. -/
def opPath : FsOp → String
  | .mkdirAll p => p
  | .write p _ => p

/-- Paths of the `mkdirAll` operations of a trace. -/
def mkdirPaths (t : List FsOp) : List String :=
  t.filterMap fun op => match op with | .mkdirAll p => some p | .write _ _ => none

/-- Paths of the `write` operations of a trace. -/
def writePaths (t : List FsOp) : List String :=
  t.filterMap fun op => match op with | .write p _ => some p | .mkdirAll _ => none

/-- Trace of `ExpressProjectGenerator._create_directory_structure`, given
`self.src_path`.  The listed directories are created with
`os.makedirs(..., exist_ok=True)`. -/
def create_directory_structure (src_path : String) : List FsOp :=
  [ .mkdirAll src_path,
    .mkdirAll (osJoin src_path "controllers"),
    .mkdirAll (osJoin src_path "routes"),
    .mkdirAll (osJoin src_path "services"),
    .mkdirAll (osJoin src_path "middlewares"),
    .mkdirAll (osJoin src_path "models"),
    .mkdirAll (osJoin src_path "config"),
    .mkdirAll (osJoin src_path "utils") ]

/-- The text `json.dump(package_json, f, indent=2)` produces in
`_initialize_npm_project` (JSON string escaping of the project name is not
modelled; the names exercised are plain). -/
def package_json_text (project_name : String) : String :=
  String.intercalate "\n"
    [ "\x7b",
      "  \"name\": \"" ++ (project_name ++ "\","),
      "  \"version\": \"1.0.0\",",
      "  \"description\": \"Express TypeScript project with Prisma\",",
      "  \"main\": \"dist/server.js\",",
      "  \"scripts\": \x7b",
      "    \"start\": \"node dist/server.js\",",
      "    \"dev\": \"ts-node-dev --respawn --transpile-only src/server.ts\",",
      "    \"build\": \"tsc\",",
      "    \"prisma:generate\": \"prisma generate\",",
      "    \"prisma:migrate\": \"prisma migrate dev\"",
      "  \x7d,",
      "  \"keywords\": [",
      "    \"express\",",
      "    \"typescript\",",
      "    \"prisma\"",
      "  ],",
      "  \"author\": \"\",",
      "  \"license\": \"ISC\",",
      "  \"dependencies\": \x7b",
      "    \"express\": \"^4.17.1\",",
      "    \"@prisma/client\": \"^3.15.2\",",
      "    \"dotenv\": \"^10.0.0\",",
      "    \"cors\": \"^2.8.5\",",
      "    \"helmet\": \"^4.6.0\",",
      "    \"express-async-errors\": \"^3.1.1\"",
      "  \x7d,",
      "  \"devDependencies\": \x7b",
      "    \"typescript\": \"^4.5.4\",",
      "    \"@types/node\": \"^16.11.12\",",
      "    \"@types/express\": \"^4.17.13\",",
      "    \"@types/cors\": \"^2.8.12\",",
      "    \"ts-node-dev\": \"^1.1.8\",",
      "    \"prisma\": \"^3.15.2\"",
      "  \x7d",
      "\x7d" ]

/-- Trace of `_initialize_npm_project`: after `os.chdir(self.project_path)`,
`package.json` is opened relative to the project root and written. -/
def initialize_npm_project (project_path project_name : String) : List FsOp :=
  [ .write (osJoin project_path "package.json") (package_json_text project_name) ]

/-- The text `json.dump(tsconfig, f, indent=2)` produces in
`_setup_typescript`. -/
def tsconfig_text : String :=
  String.intercalate "\n"
    [ "\x7b",
      "  \"compilerOptions\": \x7b",
      "    \"target\": \"es2017\",",
      "    \"module\": \"commonjs\",",
      "    \"outDir\": \"./dist\",",
      "    \"rootDir\": \"./src\",",
      "    \"strict\": true,",
      "    \"esModuleInterop\": true",
      "  \x7d,",
      "  \"include\": [",
      "    \"src/**/*\"",
      "  ],",
      "  \"exclude\": [",
      "    \"node_modules\"",
      "  ]",
      "\x7d" ]

/-- Trace of `_setup_typescript`. -/
def setup_typescript (project_path : String) : List FsOp :=
  [ .write (osJoin project_path "tsconfig.json") tsconfig_text ]

/-- The `schema_content` literal of `_setup_prisma` (the doubled braces of the
Python f-string denote literal braces; nothing is interpolated). -/
def schema_content : String :=
  String.intercalate "\n"
    [ "",
      "generator client \x7b",
      "  provider = \"prisma-client-js\"",
      "\x7d",
      "",
      "datasource db \x7b",
      "  provider = \"postgresql\"",
      "  url      = env(\"DATABASE_URL\")",
      "\x7d",
      "",
      "model User \x7b",
      "  id        Int      @id @default(autoincrement())",
      "  email     String   @unique",
      "  name      String?",
      "  createdAt DateTime @default(now())",
      "  updatedAt DateTime @updatedAt",
      "\x7d",
      "" ]

/-- Trace of `_setup_prisma` (the `input()` for the database URL is consumed
by the caller): create the `prisma` directory, then write the stripped
schema text. -/
def setup_prisma (project_path : String) : List FsOp :=
  [ .mkdirAll (pyDirname (osJoin project_path "prisma/schema.prisma")),
    .write (osJoin project_path "prisma/schema.prisma") (pyStrip schema_content) ]

/-- Trace of `_create_file(path, content)`: create the missing parent
directories of the target, then write `content.strip() + '\n'`. -/
def create_file (project_path path content : String) : List FsOp :=
  [ .mkdirAll (pyDirname (osJoin project_path path)),
    .write (osJoin project_path path) (pyStrip content ++ "\n") ]

/-- The literal returned by `_get_app_content`. -/
def get_app_content : String :=
  String.intercalate "\n"
    [ "",
      "import express from 'express';",
      "import cors from 'cors';",
      "import helmet from 'helmet';",
      "import 'express-async-errors';",
      "import errorHandler from './middlewares/error-handler';",
      "",
      "const app = express();",
      "",
      "app.use(cors());",
      "app.use(helmet());",
      "app.use(express.json());",
      "",
      "// Add routes here",
      "// app.use('/api/users', userRoutes);",
      "",
      "app.use(errorHandler);",
      "",
      "export default app;",
      "" ]

/-- The literal returned by `_get_server_content`. -/
def get_server_content : String :=
  String.intercalate "\n"
    [ "",
      "import app from './app';",
      "import \x7b PrismaClient \x7d from '@prisma/client';",
      "import \x7b connectDatabase \x7d from './config/database';",
      "",
      "const prisma = new PrismaClient();",
      "const port = process.env.PORT || 3000;",
      "",
      "async function startServer() \x7b",
      "  try \x7b",
      "    await connectDatabase();",
      "    app.listen(port, () => \x7b",
      "      console.log(`Server running on http://localhost:$\x7bport\x7d`);",
      "    \x7d);",
      "  \x7d catch (error) \x7b",
      "    console.error('Failed to start server:', error);",
      "    process.exit(1);",
      "  \x7d",
      "\x7d",
      "",
      "startServer();",
      "",
      "process.on('SIGINT', async () => \x7b",
      "  await prisma.$disconnect();",
      "  process.exit(0);",
      "\x7d);",
      "" ]

/-- The literal returned by `_get_database_config_content`. -/
def get_database_config_content : String :=
  String.intercalate "\n"
    [ "",
      "import \x7b PrismaClient \x7d from '@prisma/client';",
      "",
      "const prisma = new PrismaClient();",
      "",
      "export async function connectDatabase() \x7b",
      "  try \x7b",
      "    await prisma.$connect();",
      "    console.log('Database connected successfully');",
      "  \x7d catch (error) \x7b",
      "    console.error('Database connection failed:', error);",
      "    process.exit(1);",
      "  \x7d",
      "\x7d",
      "",
      "export \x7b prisma \x7d;",
      "" ]

/-- The literal returned by `_get_error_handler_content`.  The class defines
this method twice; Python keeps the later definition (source lines 233-247),
which is the one embedded here. -/
def get_error_handler_content : String :=
  String.intercalate "\n"
    [ "",
      "import \x7b Request, Response, NextFunction \x7d from 'express';",
      "",
      "const errorHandler = (err: Error, req: Request, res: Response, next: NextFunction) => \x7b",
      "  console.error(err.stack);",
      "",
      "  res.status(500).json(\x7b",
      "    message: 'Internal Server Error',",
      "    ...(process.env.NODE_ENV === 'development' && \x7b error: err.message \x7d)",
      "  \x7d);",
      "\x7d;",
      "",
      "export default errorHandler;",
      "" ]

/-- The f-string returned by `_get_env_content`, with `self.database_url`
interpolated verbatim. -/
def get_env_content (database_url : String) : String :=
  "\nPORT=3000\nDATABASE_URL=\"" ++ (database_url ++ "\"\nNODE_ENV=development\n")

/-- The literal returned by `_get_gitignore_content`. -/
def get_gitignore_content : String :=
  String.intercalate "\n" ["", "node_modules", "dist", ".env", "*.log", ""]

/-- Trace of `_create_base_files`: the six `_create_file` calls in source
order. -/
def create_base_files (project_path database_url : String) : List FsOp :=
  create_file project_path "src/app.ts" get_app_content ++
  create_file project_path "src/server.ts" get_server_content ++
  create_file project_path "src/config/database.ts" get_database_config_content ++
  create_file project_path "src/middlewares/errorHandler.ts" get_error_handler_content ++
  create_file project_path ".env" (get_env_content database_url) ++
  create_file project_path ".gitignore" get_gitignore_content

/-- Trace of `ExpressProjectGenerator.create_project` for a generator built
with working directory `cwd` and the given project name; `database_url` is
the string `_setup_prisma` reads from `input()`.  The external-process steps
(`_install_dependencies`, `_generate_prisma_client`) and the self-copy
(`_copy_script`) perform no modelled filesystem effect. -/
def create_project (cwd project_name database_url : String) : List FsOp :=
  create_directory_structure (osJoin (osJoin cwd project_name) "src") ++
  initialize_npm_project (osJoin cwd project_name) project_name ++
  setup_typescript (osJoin cwd project_name) ++
  setup_prisma (osJoin cwd project_name) ++
  create_base_files (osJoin cwd project_name) database_url

/-- Lines of the `service_content` f-string of `create_module` (source lines
267-301), with `{module_name.capitalize()}` and `{module_name.lower()}`
interpolated. -/
def serviceLines (m : String) : List String :=
  [ "",
    "import \x7b prisma \x7d from '../config/database';",
    "",
    "export const get" ++ (pyCapitalize m ++ "s = async () => \x7b"),
    "  return prisma." ++ (pyLower m ++ ".findMany();"),
    "\x7d;",
    "",
    "export const get" ++ (pyCapitalize m ++ "ById = async (id: number) => \x7b"),
    "  const " ++ (pyLower m ++ (" = await prisma." ++ (pyLower m ++ ".findUnique(\x7b where: \x7b id \x7d \x7d);"))),
    "  if (!" ++ (pyLower m ++ ") \x7b"),
    "    throw new Error('" ++ (pyCapitalize m ++ " not found');"),
    "  \x7d",
    "  return " ++ (pyLower m ++ ";"),
    "\x7d;",
    "",
    "export const create" ++ (pyCapitalize m ++ " = async (data: any) => \x7b"),
    "  return prisma." ++ (pyLower m ++ ".create(\x7b data \x7d);"),
    "\x7d;",
    "",
    "export const update" ++ (pyCapitalize m ++ " = async (id: number, data: any) => \x7b"),
    "  const updated" ++ (pyCapitalize m ++ (" = await prisma." ++ (pyLower m ++ ".update(\x7b where: \x7b id \x7d, data \x7d);"))),
    "  if (!updated" ++ (pyCapitalize m ++ ") \x7b"),
    "    throw new Error('" ++ (pyCapitalize m ++ " not found');"),
    "  \x7d",
    "  return updated" ++ (pyCapitalize m ++ ";"),
    "\x7d;",
    "",
    "export const delete" ++ (pyCapitalize m ++ " = async (id: number) => \x7b"),
    "  const deleted" ++ (pyCapitalize m ++ (" = await prisma." ++ (pyLower m ++ ".delete(\x7b where: \x7b id \x7d \x7d);"))),
    "  if (!deleted" ++ (pyCapitalize m ++ ") \x7b"),
    "    throw new Error('" ++ (pyCapitalize m ++ " not found');"),
    "  \x7d",
    "  return deleted" ++ (pyCapitalize m ++ ";"),
    "\x7d;",
    "" ]

/-- The `service_content` string of `create_module`. -/
def service_content (m : String) : String := String.intercalate "\n" (serviceLines m)

/-- Lines of the `controller_content` f-string of `create_module` (source
lines 306-369); `{module_name}` is interpolated raw. -/
def controllerLines (m : String) : List String :=
  [ "",
    "import \x7b Request, Response \x7d from 'express';",
    "import * as " ++ (m ++ ("Service from '../services/" ++ (pyLower m ++ "-service';"))),
    "",
    "export const get" ++ (pyCapitalize m ++ "s = async (req: Request, res: Response) => \x7b"),
    "  try \x7b",
    "    const " ++ (m ++ ("s = await " ++ (m ++ ("Service.get" ++ (pyCapitalize m ++ "s();"))))),
    "    res.json(\x7b success: true, data: " ++ (m ++ "s \x7d);"),
    "  \x7d catch (error) \x7b",
    "    res.status(500).json(\x7b success: false, message: 'Failed to retrieve " ++ (m ++ "s', error: error.message \x7d);"),
    "  \x7d",
    "\x7d;",
    "",
    "export const get" ++ (pyCapitalize m ++ " = async (req: Request, res: Response) => \x7b"),
    "  try \x7b",
    "    const \x7b id \x7d = req.params;",
    "    const " ++ (m ++ (" = await " ++ (m ++ ("Service.get" ++ (pyCapitalize m ++ "ById(Number(id));"))))),
    "    res.json(\x7b success: true, data: " ++ (m ++ " \x7d);"),
    "  \x7d catch (error) \x7b",
    "    if (error.message === '" ++ (pyCapitalize m ++ " not found') \x7b"),
    "      res.status(404).json(\x7b success: false, message: error.message \x7d);",
    "    \x7d else \x7b",
    "      res.status(500).json(\x7b success: false, message: 'Failed to retrieve " ++ (m ++ "', error: error.message \x7d);"),
    "    \x7d",
    "  \x7d",
    "\x7d;",
    "",
    "export const create" ++ (pyCapitalize m ++ " = async (req: Request, res: Response) => \x7b"),
    "  try \x7b",
    "    const new" ++ (pyCapitalize m ++ (" = await " ++ (m ++ ("Service.create" ++ (pyCapitalize m ++ "(req.body);"))))),
    "    res.status(201).json(\x7b success: true, data: new" ++ (pyCapitalize m ++ (", message: '" ++ (pyCapitalize m ++ " created successfully' \x7d);"))),
    "  \x7d catch (error) \x7b",
    "    res.status(500).json(\x7b success: false, message: 'Failed to create " ++ (m ++ "', error: error.message \x7d);"),
    "  \x7d",
    "\x7d;",
    "",
    "export const update" ++ (pyCapitalize m ++ " = async (req: Request, res: Response) => \x7b"),
    "  try \x7b",
    "    const \x7b id \x7d = req.params;",
    "    const updated" ++ (pyCapitalize m ++ (" = await " ++ (m ++ ("Service.update" ++ (pyCapitalize m ++ "(Number(id), req.body);"))))),
    "    res.json(\x7b success: true, data: updated" ++ (pyCapitalize m ++ (", message: '" ++ (pyCapitalize m ++ " updated successfully' \x7d);"))),
    "  \x7d catch (error) \x7b",
    "    if (error.message === '" ++ (pyCapitalize m ++ " not found') \x7b"),
    "      res.status(404).json(\x7b success: false, message: error.message \x7d);",
    "    \x7d else \x7b",
    "      res.status(500).json(\x7b success: false, message: 'Failed to update " ++ (m ++ "', error: error.message \x7d);"),
    "    \x7d",
    "  \x7d",
    "\x7d;",
    "",
    "export const delete" ++ (pyCapitalize m ++ " = async (req: Request, res: Response) => \x7b"),
    "  try \x7b",
    "    const \x7b id \x7d = req.params;",
    "    await " ++ (m ++ ("Service.delete" ++ (pyCapitalize m ++ "(Number(id));"))),
    "    res.json(\x7b success: true, message: '" ++ (pyCapitalize m ++ " deleted successfully' \x7d);"),
    "  \x7d catch (error) \x7b",
    "    if (error.message === '" ++ (pyCapitalize m ++ " not found') \x7b"),
    "      res.status(404).json(\x7b success: false, message: error.message \x7d);",
    "    \x7d else \x7b",
    "      res.status(500).json(\x7b success: false, message: 'Failed to delete " ++ (m ++ "', error: error.message \x7d);"),
    "    \x7d",
    "  \x7d",
    "\x7d;",
    "" ]

/-- The `controller_content` string of `create_module`. -/
def controller_content (m : String) : String := String.intercalate "\n" (controllerLines m)

/-- Lines of the `route_content` f-string of `create_module` (source lines
374-387). -/
def routeLines (m : String) : List String :=
  [ "",
    "import \x7b Router \x7d from 'express';",
    "import * as " ++ (m ++ ("Controller from '../controllers/" ++ (pyLower m ++ "-controller';"))),
    "",
    "const router = Router();",
    "",
    "router.get('/', " ++ (m ++ ("Controller.get" ++ (pyCapitalize m ++ "s);"))),
    "router.get('/:id', " ++ (m ++ ("Controller.get" ++ (pyCapitalize m ++ ");"))),
    "router.post('/', " ++ (m ++ ("Controller.create" ++ (pyCapitalize m ++ ");"))),
    "router.put('/:id', " ++ (m ++ ("Controller.update" ++ (pyCapitalize m ++ ");"))),
    "router.delete('/:id', " ++ (m ++ ("Controller.delete" ++ (pyCapitalize m ++ ");"))),
    "",
    "export default router;",
    "" ]

/-- The `route_content` string of `create_module`. -/
def route_content (m : String) : String := String.intercalate "\n" (routeLines m)

/-- Trace of `create_module(project_path, module_name)`: three plain
`open(..., 'w')` writes (no directory creation) into `src/services`,
`src/controllers` and `src/routes`, in source order. -/
def create_module (project_path module_name : String) : List FsOp :=
  [ .write (osJoin (osJoin (osJoin project_path "src") "services")
      (pyLower module_name ++ "-service.ts")) (service_content module_name),
    .write (osJoin (osJoin (osJoin project_path "src") "controllers")
      (pyLower module_name ++ "-controller.ts")) (controller_content module_name),
    .write (osJoin (osJoin (osJoin project_path "src") "routes")
      (pyLower module_name ++ "-routes.ts")) (route_content module_name) ]

/-- Boolean test that `p` is a suffix of `s` (for the `.ts` filter of
`save_ts_files_to_file`). -/
def strHasSuffix (p s : String) : Bool := p.data.isSuffixOf s.data

/-- Model of `save_ts_files_to_file(project_path)`: collect the `.ts` files
under `src` (in file-table order, standing in for the `os.walk` order),
concatenate them with their relative paths and a rule line, and write
`allcodebase.txt` at the project root. -/
def save_ts_files_to_file (fs : Fs) (project_path : String) : Except PyExc Fs :=
  let src_path := osJoin project_path "src"
  let ts := fs.files.filter fun pc =>
    strHasPrefix (src_path ++ "/") pc.1 && strHasSuffix ".ts" pc.1
  let all_content := ts.map fun pc =>
    "// " ++ (⟨pc.1.data.drop (project_path.length + 1)⟩ ++ ("\n\n" ++ (pc.2 ++ ("\n\n" ++ (⟨List.replicate 80 '='⟩ ++ "\n")))))
  runOp fs (.write (osJoin project_path "allcodebase.txt") (String.intercalate "\n" all_content))

/-- The menu loop of `main()`, driven by the queue of strings the user will
type at the successive `input()` prompts.  Each menu action's filesystem
effects are interpreted against the current state; an uncaught exception
aborts the whole loop (there is no try/except in the source).  Exhausting
the input queue at a prompt raises `EOFError`, and choice 4 breaks the loop.
Two simplifications: the database-URL prompt, issued midway through project
creation, is consumed before the trace runs (if the queue dies between the
two prompts the partial writes preceding the URL prompt are not replayed),
and the ambient `os.chdir` mutation of `_initialize_npm_project` is not
modelled — `cwd` stays fixed across iterations.  No claim depends on
either corner. -/
def main (cwd : String) : Fs → List String → Except PyExc Fs
  | _, [] => .error .eofError
  | fs, "1" :: project_name :: database_url :: rest =>
    match runTrace fs (create_project cwd project_name database_url) with
    | .ok fs' => main cwd fs' rest
    | .error e => .error e
  | _, "1" :: _ => .error .eofError
  | fs, "2" :: project_path :: module_name :: rest =>
    match runTrace fs (create_module project_path module_name) with
    | .ok fs' => main cwd fs' rest
    | .error e => .error e
  | _, "2" :: _ => .error .eofError
  | fs, "3" :: project_path :: rest =>
    match save_ts_files_to_file fs project_path with
    | .ok fs' => main cwd fs' rest
    | .error e => .error e
  | _, ["3"] => .error .eofError
  | fs, "4" :: _ => .ok fs
  | fs, _ :: rest => main cwd fs rest

/-! ## Helper lemmas about the string and filesystem models -/

theorem dropWhile_append_all {α : Type} (p : α → Bool) (l₁ l₂ : List α)
    (h : ∀ a ∈ l₁, p a = true) : (l₁ ++ l₂).dropWhile p = l₂.dropWhile p := by
  induction l₁ with
  | nil => rfl
  | cons a l ih =>
    simp only [List.cons_append, List.dropWhile_cons]
    rw [h a (by simp)]
    simp only [if_true]
    exact ih (fun a ha => h a (by simp [ha]))

theorem pyDirname_join (x s : String) (h : ∀ c ∈ s.data, (c == '/') = false) :
    pyDirname (x ++ "/" ++ s) = x := by
  have hdata : (x ++ "/" ++ s).data = (x.data ++ ['/']) ++ s.data := by
    rw [String.data_append, String.data_append]
  unfold pyDirname
  rw [hdata, List.reverse_append, List.reverse_append]
  rw [dropWhile_append_all _ s.data.reverse _ (by
    intro a ha
    rw [List.mem_reverse] at ha
    simp only [bne_iff_ne, ne_eq]
    intro hc
    rw [hc] at ha
    have := h '/' ha
    simp at this)]
  simp only [List.reverse_cons, List.reverse_nil, List.nil_append, List.singleton_append]
  rw [List.dropWhile_cons]
  simp only [bne_self_eq_false, if_false, Bool.false_eq_true, ite_false, List.tail_cons,
    List.reverse_reverse]

theorem strHasPrefix_append_of_le (P lit s : String) (h : P.length ≤ lit.length) :
    strHasPrefix P (lit ++ s) = strHasPrefix P lit := by
  unfold strHasPrefix
  rw [String.data_append]
  rcases hb : P.data.isPrefixOf lit.data with _ | _
  · rw [Bool.eq_false_iff]
    intro hc
    rw [List.isPrefixOf_iff_prefix] at hc
    have h1 : P.data <+: lit.data :=
      List.prefix_of_prefix_length_le hc (List.prefix_append lit.data s.data) h
    rw [← List.isPrefixOf_iff_prefix] at h1
    rw [hb] at h1
    exact Bool.false_ne_true h1
  · rw [List.isPrefixOf_iff_prefix] at hb ⊢
    exact hb.trans (List.prefix_append lit.data s.data)

theorem strHasPrefix_append_of_gt (P lit s : String) (h : lit.length < P.length)
    (h2 : strHasPrefix lit P = false) : strHasPrefix P (lit ++ s) = false := by
  unfold strHasPrefix at h2 ⊢
  rw [String.data_append, Bool.eq_false_iff]
  intro hc
  rw [List.isPrefixOf_iff_prefix] at hc
  have hl : lit.data <+: P.data :=
    List.prefix_of_prefix_length_le (List.prefix_append lit.data s.data) hc (le_of_lt h)
  rw [← List.isPrefixOf_iff_prefix] at hl
  rw [h2] at hl
  exact Bool.false_ne_true hl

theorem pyStrip_env (d : String) :
    pyStrip ("\nPORT=3000\nDATABASE_URL=\"" ++ (d ++ "\"\nNODE_ENV=development\n")) =
      "PORT=3000\nDATABASE_URL=\"" ++ (d ++ "\"\nNODE_ENV=development") := by
  apply String.ext
  simp +decide [pyStrip, String.data_append, List.dropWhile_cons, List.reverse_append,
    List.append_assoc, List.cons_append, pySpace]

theorem mem_dirClosure_self (n : Nat) (q : String) : q ∈ dirClosure n q := by
  cases n <;> simp [dirClosure]

theorem mem_mkdirAllDirs_self (p : String) : p ∈ mkdirAllDirs p :=
  mem_dirClosure_self _ _

theorem mem_mkdirAllDirs_parent (x s : String) (h : ∀ c ∈ s.data, (c == '/') = false) :
    x ∈ mkdirAllDirs (osJoin x s) := by
  have hd : pyDirname (osJoin x s) = x := pyDirname_join x s h
  have hlen : (osJoin x s).length = (x.length + s.length) + 1 := by
    simp only [osJoin, String.length_append]
    have : ("/" : String).length = 1 := rfl
    omega
  unfold mkdirAllDirs
  rw [hlen]
  simp only [dirClosure, hd]
  exact List.mem_cons_of_mem _ (mem_dirClosure_self _ _)

/-- Precondition under which a trace runs without error: every write's parent
directory exists at the time of the write. -/
def traceOk (dirs : List String) : List FsOp → Prop
  | [] => True
  | .mkdirAll p :: r => traceOk (mkdirAllDirs p ++ dirs) r
  | .write p _ :: r => pyDirname p ∈ dirs ∧ traceOk dirs r

theorem runTrace_ok_of_traceOk (t : List FsOp) :
    ∀ fs : Fs, traceOk fs.dirs t → ∃ fs', runTrace fs t = .ok fs' := by
  induction t with
  | nil => exact fun fs _ => ⟨fs, rfl⟩
  | cons op r ih =>
    intro fs h
    cases op with
    | mkdirAll p =>
      have h' : traceOk (mkdirAllDirs p ++ fs.dirs) r := h
      obtain ⟨fs', hfs'⟩ := ih { fs with dirs := mkdirAllDirs p ++ fs.dirs } h'
      exact ⟨fs', by simp only [runTrace, runOp]; exact hfs'⟩
    | write p c =>
      obtain ⟨hmem, h'⟩ := h
      obtain ⟨fs', hfs'⟩ := ih { fs with files := setFile fs.files p c } h'
      refine ⟨fs', ?_⟩
      simp only [runTrace, runOp, if_pos hmem]
      exact hfs'

theorem setFile_idem (l : List (String × String)) (p c : String) :
    setFile (setFile l p c) p c = setFile l p c := by
  induction l with
  | nil => simp [setFile]
  | cons qd rest ih =>
    obtain ⟨q, d⟩ := qd
    by_cases hq : q = p
    · subst hq
      simp [setFile]
    · simp only [setFile, if_neg hq]
      rw [ih]

theorem setFile_of_lookup_eq (l : List (String × String)) (p c : String)
    (h : l.lookup p = some c) : setFile l p c = l := by
  induction l with
  | nil => simp [List.lookup] at h
  | cons ab rest ih =>
    obtain ⟨a, b⟩ := ab
    by_cases hpa : p = a
    · subst hpa
      simp only [List.lookup, beq_self_eq_true] at h
      have hb : b = c := by simpa using h
      subst hb
      simp [setFile]
    · have hf : (p == a) = false := by simpa using hpa
      simp only [List.lookup, hf] at h
      have hap : ¬ a = p := fun hh => hpa hh.symm
      simp only [setFile, if_neg hap]
      rw [ih h]

theorem lookup_setFile_self (l : List (String × String)) (p c : String) :
    (setFile l p c).lookup p = some c := by
  induction l with
  | nil => simp [setFile, List.lookup]
  | cons qd rest ih =>
    obtain ⟨q, d⟩ := qd
    by_cases hq : q = p
    · subst hq
      simp [setFile, List.lookup]
    · simp only [setFile, if_neg hq, List.lookup]
      have hf : (p == q) = false := by simpa using Ne.symm hq
      rw [hf]
      exact ih

theorem lookup_setFile_ne (l : List (String × String)) (p q c : String) (h : p ≠ q) :
    (setFile l q c).lookup p = l.lookup p := by
  induction l with
  | nil =>
    have hf : (p == q) = false := by simpa using h
    simp [setFile, List.lookup, hf]
  | cons ab rest ih =>
    obtain ⟨a, b⟩ := ab
    by_cases haq : a = q
    · subst haq
      have hf : (p == a) = false := by simpa using h
      simp only [setFile, if_pos rfl, List.lookup, hf]
    · simp only [setFile, if_neg haq, List.lookup]
      by_cases hpa : p = a
      · subst hpa
        simp
      · have hf : (p == a) = false := by simpa using hpa
        rw [hf]
        exact ih

theorem runTrace_write_ok (D : List String) (F : List (String × String)) (p c : String)
    (t : List FsOp) (h : pyDirname p ∈ D) :
    runTrace ⟨D, F⟩ (.write p c :: t) = runTrace ⟨D, setFile F p c⟩ t := by
  simp only [runTrace, runOp]
  rw [if_pos h]

theorem runTrace_write_fail (D : List String) (F : List (String × String)) (p c : String)
    (t : List FsOp) (h : pyDirname p ∉ D) :
    runTrace ⟨D, F⟩ (.write p c :: t) = .error (.fileNotFound p) := by
  simp only [runTrace, runOp]
  rw [if_neg h]

theorem create_module_eq (root name : String) :
    create_module root name =
      [ .write (root ++ "/src/services/" ++ (pyLower name ++ "-service.ts"))
          (service_content name),
        .write (root ++ "/src/controllers/" ++ (pyLower name ++ "-controller.ts"))
          (controller_content name),
        .write (root ++ "/src/routes/" ++ (pyLower name ++ "-routes.ts"))
          (route_content name) ] := by
  simp [create_module, osJoin, String.append_assoc]

theorem module_path_ne_service_controller (r L : String) :
    r ++ "/src/services/" ++ (L ++ "-service.ts") ≠
      r ++ "/src/controllers/" ++ (L ++ "-controller.ts") := by
  intro h
  have hl := congrArg String.length h
  have e1 : ("/src/services/" : String).length = 14 := rfl
  have e2 : ("/src/controllers/" : String).length = 17 := rfl
  have e3 : ("-service.ts" : String).length = 11 := rfl
  have e4 : ("-controller.ts" : String).length = 14 := rfl
  simp [String.length_append, e1, e2, e3, e4] at hl
  omega

theorem module_path_ne_service_route (r L : String) :
    r ++ "/src/services/" ++ (L ++ "-service.ts") ≠
      r ++ "/src/routes/" ++ (L ++ "-routes.ts") := by
  intro h
  have hl := congrArg String.length h
  have e1 : ("/src/services/" : String).length = 14 := rfl
  have e2 : ("/src/routes/" : String).length = 12 := rfl
  have e3 : ("-service.ts" : String).length = 11 := rfl
  have e4 : ("-routes.ts" : String).length = 10 := rfl
  simp [String.length_append, e1, e2, e3, e4] at hl
  omega

theorem module_path_ne_controller_route (r L : String) :
    r ++ "/src/controllers/" ++ (L ++ "-controller.ts") ≠
      r ++ "/src/routes/" ++ (L ++ "-routes.ts") := by
  intro h
  have hl := congrArg String.length h
  have e1 : ("/src/controllers/" : String).length = 17 := rfl
  have e2 : ("/src/routes/" : String).length = 12 := rfl
  have e3 : ("-controller.ts" : String).length = 14 := rfl
  have e4 : ("-routes.ts" : String).length = 10 := rfl
  simp [String.length_append, e1, e2, e3, e4] at hl
  omega

theorem traceOk_create_project (dirs : List String) (cwd name url : String) :
    traceOk dirs (create_project cwd name url) := by
  have hproj : (osJoin cwd name) ∈ mkdirAllDirs (osJoin (osJoin cwd name) "src") :=
    mem_mkdirAllDirs_parent _ "src" (by decide)
  have hpkg : pyDirname (osJoin (osJoin cwd name) "package.json") = osJoin cwd name :=
    pyDirname_join _ _ (by decide)
  have htsc : pyDirname (osJoin (osJoin cwd name) "tsconfig.json") = osJoin cwd name :=
    pyDirname_join _ _ (by decide)
  simp only [create_project, create_directory_structure, initialize_npm_project,
    setup_typescript, setup_prisma, create_base_files, create_file,
    List.cons_append, List.nil_append, List.append_assoc]
  simp only [traceOk, hpkg, htsc]
  refine ⟨?_, ?_, ?_, ?_, ?_, ?_, ?_, ?_, ?_, trivial⟩
  · exact List.mem_append_right _ (List.mem_append_right _ (List.mem_append_right _
      (List.mem_append_right _ (List.mem_append_right _ (List.mem_append_right _
        (List.mem_append_right _ (List.mem_append_left _ hproj)))))))
  · exact List.mem_append_right _ (List.mem_append_right _ (List.mem_append_right _
      (List.mem_append_right _ (List.mem_append_right _ (List.mem_append_right _
        (List.mem_append_right _ (List.mem_append_left _ hproj)))))))
  · exact List.mem_append_left _ (mem_mkdirAllDirs_self _)
  · exact List.mem_append_left _ (mem_mkdirAllDirs_self _)
  · exact List.mem_append_left _ (mem_mkdirAllDirs_self _)
  · exact List.mem_append_left _ (mem_mkdirAllDirs_self _)
  · exact List.mem_append_left _ (mem_mkdirAllDirs_self _)
  · exact List.mem_append_left _ (mem_mkdirAllDirs_self _)
  · exact List.mem_append_left _ (mem_mkdirAllDirs_self _)

theorem runTrace_map_mkdirAll (ps : List String) : ∀ fs : Fs,
    ∃ fs', runTrace fs (ps.map .mkdirAll) = .ok fs' ∧ fs'.files = fs.files ∧
      ∀ d ∈ fs.dirs, d ∈ fs'.dirs := by
  induction ps with
  | nil => exact fun fs => ⟨fs, rfl, rfl, fun d hd => hd⟩
  | cons p rest ih =>
    intro fs
    obtain ⟨fs', h1, h2, h3⟩ := ih { fs with dirs := mkdirAllDirs p ++ fs.dirs }
    refine ⟨fs', ?_, h2, ?_⟩
    · simp only [List.map_cons, runTrace, runOp]
      exact h1
    · intro d hd
      exact h3 d (List.mem_append_right _ hd)

/-! ## Claim theorems -/

/-- C1 counterexample: for the raw name "aB" the derived capitalized variant
is "Ab", whose tail "b" differs from the tail "B" of the input — so the
remaining characters are NOT unchanged, refuting the claim. -/
theorem c1_counterexample :
    ¬ ((pyCapitalize "aB").data.drop 1 = ("aB" : String).data.drop 1) := by
  decide

/-- C1 (amended): for every non-empty raw module name, the derived
capitalized variant has as its first character the upper-cased first
character of the input, and the remaining characters are the LOWER-cased
remaining characters of the input (Python `str.capitalize` lower-cases the
tail); hence the tail of `capitalized` agrees with the tail of the `lower`
variant, not with the tail of the raw input. -/
theorem c1_amended_capitalize (n : String) (c : Char) (rest : List Char)
    (h : n.data = c :: rest) :
    (pyCapitalize n).data = Char.toUpper c :: rest.map Char.toLower ∧
    (pyCapitalize n).data.drop 1 = (pyLower n).data.drop 1 := by
  constructor
  · simp only [pyCapitalize, h]
  · simp [pyCapitalize, pyLower, h]

/-- C1 witness: the amended statement evaluated at the concrete name "aB". -/
theorem c1_witness :
    (pyCapitalize "aB").data = Char.toUpper 'a' :: ['B'].map Char.toLower ∧
    (pyCapitalize "aB").data.drop 1 = (pyLower "aB").data.drop 1 :=
  c1_amended_capitalize "aB" 'a' ['B'] rfl

/-- C2 counterexample: the empty name is not rejected anywhere — the
capitalize derivation returns the empty string without failing, and
`create_module` with an empty module name still performs file writes
(against the claim that it fails with InvalidName before writing any
file). -/
theorem c2_counterexample :
    pyCapitalize "" = "" ∧ writePaths (create_module "p" "") ≠ [] := by
  constructor
  · rfl
  · decide

/-- C2 (amended): neither the name derivation nor `create_module` validates
the module name.  On the empty string the derivations return empty variants
and `create_module` proceeds to write exactly its usual three files, whose
basenames degenerate to "-service.ts", "-controller.ts" and "-routes.ts". -/
theorem c2_amended_no_validation (root : String) :
    writePaths (create_module root "") =
      [ root ++ "/src/services/-service.ts",
        root ++ "/src/controllers/-controller.ts",
        root ++ "/src/routes/-routes.ts" ] ∧
    mkdirPaths (create_module root "") = [] := by
  have h0 : pyLower "" = "" := rfl
  constructor
  · simp [writePaths, create_module, osJoin, h0, String.append_assoc]
  · simp [mkdirPaths, create_module]

/-- C3 counterexample: the three module-file writes of `create_module` do
not create parent directories, so on an empty filesystem the very first
write fails with FileNotFoundError — a write failing merely because its
parent directory does not exist, refuting the claim. -/
theorem c3_counterexample :
    runTrace ⟨[], []⟩ (create_module "p" "user") =
      .error (.fileNotFound "p/src/services/user-service.ts") := rfl

/-- C3 (amended): every project-level write performed during scaffolding is
preceded by creation of the missing parent directories, so `create_project`
runs without error from ANY filesystem state; but the three module-file
writes of `create_module` perform no directory creation at all, and fail
when the module folders are missing. -/
theorem c3_amended_parent_dirs :
    (∀ (fs : Fs) (cwd name url : String),
      ∃ fs', runTrace fs (create_project cwd name url) = .ok fs') ∧
    (∀ root m : String, mkdirPaths (create_module root m) = []) := by
  constructor
  · intro fs cwd name url
    exact runTrace_ok_of_traceOk _ fs (traceOk_create_project fs.dirs cwd name url)
  · intro root m
    simp [mkdirPaths, create_module]

/-- C4 counterexample: a FilesystemFailure inside menu action 2 (adding a
module to a non-existent project) terminates the whole tool — the pending
exit request "4" is never served, and the loop does not accept another menu
action, refuting the claim. -/
theorem c4_counterexample :
    main "c" ⟨[], []⟩ ["2", "p", "user", "4"] =
      .error (.fileNotFound "p/src/services/user-service.ts") := rfl

/-- C4 (amended): `main` wraps no menu action in a handler, so any exception
raised during a top-level action propagates out of the loop and terminates
the tool; only the invalid-choice branch keeps the loop alive. -/
theorem c4_amended_propagation :
    (∀ (cwd : String) (fs : Fs) (project_path module_name : String) (e : PyExc)
        (rest : List String),
      runTrace fs (create_module project_path module_name) = .error e →
      main cwd fs ("2" :: project_path :: module_name :: rest) = .error e) ∧
    (∀ (cwd : String) (fs : Fs) (rest : List String),
      main cwd fs ("9" :: rest) = main cwd fs rest) := by
  constructor
  · intro cwd fs pp mn e rest h
    simp only [main, h]
  · intro cwd fs rest
    cases rest <;> rfl

/-- C4 witness: the amended propagation statement applied at a concrete
failing action. -/
theorem c4_witness :
    main "c" (⟨[], []⟩ : Fs) ("2" :: "pp" :: "post" :: ["4"]) =
      .error (.fileNotFound "pp/src/services/post-service.ts") :=
  c4_amended_propagation.1 "c" ⟨[], []⟩ "pp" "post"
    (.fileNotFound "pp/src/services/post-service.ts") ["4"] rfl

theorem runTrace_create_module_ok (root name : String) (fs fs' : Fs)
    (h : runTrace fs (create_module root name) = .ok fs') :
    fs'.dirs = fs.dirs ∧
    fs'.files = setFile (setFile (setFile fs.files
        (root ++ "/src/services/" ++ (pyLower name ++ "-service.ts")) (service_content name))
        (root ++ "/src/controllers/" ++ (pyLower name ++ "-controller.ts"))
        (controller_content name))
        (root ++ "/src/routes/" ++ (pyLower name ++ "-routes.ts")) (route_content name) ∧
    pyDirname (root ++ "/src/services/" ++ (pyLower name ++ "-service.ts")) ∈ fs.dirs ∧
    pyDirname (root ++ "/src/controllers/" ++ (pyLower name ++ "-controller.ts")) ∈ fs.dirs ∧
    pyDirname (root ++ "/src/routes/" ++ (pyLower name ++ "-routes.ts")) ∈ fs.dirs := by
  obtain ⟨D, F⟩ := fs
  rw [create_module_eq] at h
  by_cases h1 : pyDirname (root ++ "/src/services/" ++ (pyLower name ++ "-service.ts")) ∈ D
  · rw [runTrace_write_ok _ _ _ _ _ h1] at h
    by_cases h2 : pyDirname (root ++ "/src/controllers/" ++ (pyLower name ++ "-controller.ts")) ∈ D
    · rw [runTrace_write_ok _ _ _ _ _ h2] at h
      by_cases h3 : pyDirname (root ++ "/src/routes/" ++ (pyLower name ++ "-routes.ts")) ∈ D
      · rw [runTrace_write_ok _ _ _ _ _ h3] at h
        simp only [runTrace] at h
        injection h with hh
        exact ⟨by rw [← hh], by rw [← hh], h1, h2, h3⟩
      · rw [runTrace_write_fail _ _ _ _ _ h3] at h
        exact absurd h (by simp)
    · rw [runTrace_write_fail _ _ _ _ _ h2] at h
      exact absurd h (by simp)
  · rw [runTrace_write_fail _ _ _ _ _ h1] at h
    exact absurd h (by simp)

/-- C5: for every non-empty module name, `create_module` performs exactly
three writes — service, controller and route file under the lower-cased name
inside `src/` — at three pairwise distinct paths, all of them strictly below
`root/src/`; no other operation (in particular no write to a project-level
file) occurs. -/
theorem c5_exactly_three_files (root name : String) (h : name ≠ "") :
    create_module root name =
      [ .write (root ++ "/src/services/" ++ (pyLower name ++ "-service.ts"))
          (service_content name),
        .write (root ++ "/src/controllers/" ++ (pyLower name ++ "-controller.ts"))
          (controller_content name),
        .write (root ++ "/src/routes/" ++ (pyLower name ++ "-routes.ts"))
          (route_content name) ] ∧
    root ++ "/src/services/" ++ (pyLower name ++ "-service.ts") ≠
      root ++ "/src/controllers/" ++ (pyLower name ++ "-controller.ts") ∧
    root ++ "/src/services/" ++ (pyLower name ++ "-service.ts") ≠
      root ++ "/src/routes/" ++ (pyLower name ++ "-routes.ts") ∧
    root ++ "/src/controllers/" ++ (pyLower name ++ "-controller.ts") ≠
      root ++ "/src/routes/" ++ (pyLower name ++ "-routes.ts") ∧
    ∀ p ∈ writePaths (create_module root name), ∃ srel, p = root ++ "/src/" ++ srel := by
  refine ⟨create_module_eq root name, module_path_ne_service_controller _ _,
    module_path_ne_service_route _ _, module_path_ne_controller_route _ _, ?_⟩
  intro p hp
  simp only [writePaths, create_module_eq root name, List.filterMap_cons, List.filterMap_nil,
    List.mem_cons, List.not_mem_nil, or_false] at hp
  rcases hp with hp | hp | hp
  · exact ⟨"services/" ++ (pyLower name ++ "-service.ts"),
      by rw [hp]; apply String.ext; simp [String.data_append, List.append_assoc]⟩
  · exact ⟨"controllers/" ++ (pyLower name ++ "-controller.ts"),
      by rw [hp]; apply String.ext; simp [String.data_append, List.append_assoc]⟩
  · exact ⟨"routes/" ++ (pyLower name ++ "-routes.ts"),
      by rw [hp]; apply String.ext; simp [String.data_append, List.append_assoc]⟩

/-- C5 witness: the statement evaluated at the module name "user" of the
spec's acceptance example. -/
theorem c5_witness :
    create_module "p" "user" =
      [ .write ("p" ++ "/src/services/" ++ (pyLower "user" ++ "-service.ts"))
          (service_content "user"),
        .write ("p" ++ "/src/controllers/" ++ (pyLower "user" ++ "-controller.ts"))
          (controller_content "user"),
        .write ("p" ++ "/src/routes/" ++ (pyLower "user" ++ "-routes.ts"))
          (route_content "user") ] ∧
    "p" ++ "/src/services/" ++ (pyLower "user" ++ "-service.ts") ≠
      "p" ++ "/src/controllers/" ++ (pyLower "user" ++ "-controller.ts") ∧
    "p" ++ "/src/services/" ++ (pyLower "user" ++ "-service.ts") ≠
      "p" ++ "/src/routes/" ++ (pyLower "user" ++ "-routes.ts") ∧
    "p" ++ "/src/controllers/" ++ (pyLower "user" ++ "-controller.ts") ≠
      "p" ++ "/src/routes/" ++ (pyLower "user" ++ "-routes.ts") ∧
    ∀ p ∈ writePaths (create_module "p" "user"), ∃ srel, p = "p" ++ "/src/" ++ srel :=
  c5_exactly_three_files "p" "user" (by decide)

/-- C8: template rendering is embedded as pure Lean functions of the render
context (`service_content`, `controller_content`, `route_content`,
`get_env_content`, ...), so identical inputs give identical text by
construction; the substantive consequence proved here is that generating the
same module a second time writes byte-identical content to the same paths
and therefore leaves the filesystem exactly as the first generation left
it. -/
theorem c8_render_deterministic (root name : String) (fs fs₁ : Fs)
    (h : runTrace fs (create_module root name) = .ok fs₁) :
    runTrace fs₁ (create_module root name) = .ok fs₁ := by
  obtain ⟨hd, hf, h1, h2, h3⟩ := runTrace_create_module_ok root name fs fs₁ h
  have hne12 := module_path_ne_service_controller root (pyLower name)
  have hne13 := module_path_ne_service_route root (pyLower name)
  have hne23 := module_path_ne_controller_route root (pyLower name)
  obtain ⟨D₁, F₁⟩ := fs₁
  have hd' : D₁ = fs.dirs := hd
  have hf' : F₁ = setFile (setFile (setFile fs.files
      (root ++ "/src/services/" ++ (pyLower name ++ "-service.ts")) (service_content name))
      (root ++ "/src/controllers/" ++ (pyLower name ++ "-controller.ts"))
      (controller_content name))
      (root ++ "/src/routes/" ++ (pyLower name ++ "-routes.ts")) (route_content name) := hf
  have m1 : pyDirname (root ++ "/src/services/" ++ (pyLower name ++ "-service.ts")) ∈ D₁ := by
    rw [hd']
    exact h1
  have m2 : pyDirname (root ++ "/src/controllers/" ++ (pyLower name ++ "-controller.ts")) ∈ D₁ := by
    rw [hd']
    exact h2
  have m3 : pyDirname (root ++ "/src/routes/" ++ (pyLower name ++ "-routes.ts")) ∈ D₁ := by
    rw [hd']
    exact h3
  have l1 : F₁.lookup (root ++ "/src/services/" ++ (pyLower name ++ "-service.ts")) =
      some (service_content name) := by
    rw [hf', lookup_setFile_ne _ _ _ _ hne13, lookup_setFile_ne _ _ _ _ hne12]
    exact lookup_setFile_self _ _ _
  have l2 : F₁.lookup (root ++ "/src/controllers/" ++ (pyLower name ++ "-controller.ts")) =
      some (controller_content name) := by
    rw [hf', lookup_setFile_ne _ _ _ _ hne23]
    exact lookup_setFile_self _ _ _
  have l3 : F₁.lookup (root ++ "/src/routes/" ++ (pyLower name ++ "-routes.ts")) =
      some (route_content name) := by
    rw [hf']
    exact lookup_setFile_self _ _ _
  rw [create_module_eq]
  rw [runTrace_write_ok _ _ _ _ _ m1, setFile_of_lookup_eq _ _ _ l1]
  rw [runTrace_write_ok _ _ _ _ _ m2, setFile_of_lookup_eq _ _ _ l2]
  rw [runTrace_write_ok _ _ _ _ _ m3, setFile_of_lookup_eq _ _ _ l3]
  rfl

/-- C8 witness: generating module "user" a second time over the state the
first generation produced returns that state unchanged. -/
theorem c8_witness :
    runTrace (⟨["p/src/services", "p/src/controllers", "p/src/routes"],
        [ ("p/src/services/user-service.ts", service_content "user"),
          ("p/src/controllers/user-controller.ts", controller_content "user"),
          ("p/src/routes/user-routes.ts", route_content "user") ]⟩ : Fs)
      (create_module "p" "user") =
    .ok ⟨["p/src/services", "p/src/controllers", "p/src/routes"],
        [ ("p/src/services/user-service.ts", service_content "user"),
          ("p/src/controllers/user-controller.ts", controller_content "user"),
          ("p/src/routes/user-routes.ts", route_content "user") ]⟩ :=
  c8_render_deterministic "p" "user"
    ⟨["p/src/services", "p/src/controllers", "p/src/routes"], []⟩ _ (by rfl)

/-- C9: the `.env` file written during scaffolding embeds the interactively
supplied database URL verbatim between double quotes, and its full content
is exactly the three variables PORT=3000, DATABASE_URL="..." and
NODE_ENV=development; the write of precisely this content to `.env` under
the project root is part of the scaffolding trace. -/
theorem c9_env_file (cwd name url : String) :
    pyStrip (get_env_content url) ++ "\n" =
      "PORT=3000\nDATABASE_URL=\"" ++ (url ++ "\"\nNODE_ENV=development\n") ∧
    FsOp.write (osJoin (osJoin cwd name) ".env") (pyStrip (get_env_content url) ++ "\n") ∈
      create_project cwd name url := by
  constructor
  · rw [get_env_content, pyStrip_env]
    apply String.ext
    simp [String.data_append, List.append_assoc]
  · simp [create_project, create_base_files, create_file, List.mem_append]

/-- C10: the three target paths of module generation depend only on the
lower-cased module name, so names with equal lower-casings (e.g. "User" and
"user") target the same three files; consequently a later generation
overwrites them — after any successful run for the second name, the three
paths hold exactly that run's rendered contents, whatever was there
before. -/
theorem c10_paths_lower_only (root m₁ m₂ : String) (h : pyLower m₁ = pyLower m₂) :
    writePaths (create_module root m₁) = writePaths (create_module root m₂) ∧
    (∀ fs fs' : Fs, runTrace fs (create_module root m₂) = .ok fs' →
      fs'.files.lookup (root ++ "/src/services/" ++ (pyLower m₂ ++ "-service.ts")) =
        some (service_content m₂) ∧
      fs'.files.lookup (root ++ "/src/controllers/" ++ (pyLower m₂ ++ "-controller.ts")) =
        some (controller_content m₂) ∧
      fs'.files.lookup (root ++ "/src/routes/" ++ (pyLower m₂ ++ "-routes.ts")) =
        some (route_content m₂)) := by
  constructor
  · simp [writePaths, create_module, h]
  · intro fs fs' hrun
    obtain ⟨hd, hf, _h1, _h2, _h3⟩ := runTrace_create_module_ok root m₂ fs fs' hrun
    have hne12 := module_path_ne_service_controller root (pyLower m₂)
    have hne13 := module_path_ne_service_route root (pyLower m₂)
    have hne23 := module_path_ne_controller_route root (pyLower m₂)
    refine ⟨?_, ?_, ?_⟩
    · rw [hf, lookup_setFile_ne _ _ _ _ hne13, lookup_setFile_ne _ _ _ _ hne12]
      exact lookup_setFile_self _ _ _
    · rw [hf, lookup_setFile_ne _ _ _ _ hne23]
      exact lookup_setFile_self _ _ _
    · rw [hf]
      exact lookup_setFile_self _ _ _

/-- C10 witness: the statement applied to the names "User" and "user", whose
lower-casings coincide. -/
theorem c10_witness :
    writePaths (create_module "q" "User") = writePaths (create_module "q" "user") ∧
    (∀ fs fs' : Fs, runTrace fs (create_module "q" "user") = .ok fs' →
      fs'.files.lookup ("q" ++ "/src/services/" ++ (pyLower "user" ++ "-service.ts")) =
        some (service_content "user") ∧
      fs'.files.lookup ("q" ++ "/src/controllers/" ++ (pyLower "user" ++ "-controller.ts")) =
        some (controller_content "user") ∧
      fs'.files.lookup ("q" ++ "/src/routes/" ++ (pyLower "user" ++ "-routes.ts")) =
        some (route_content "user")) :=
  c10_paths_lower_only "q" "User" "user" (by rfl)

/-- C7: directory creation during scaffolding targets exactly `src`, its
seven subfolders `controllers, routes, services, middlewares, models,
config, utils`, the `prisma` folder and (re-)targets of already-created
parents — no other subdirectory of `src` is ever created; and the directory
creation step is idempotent: run from any filesystem state it succeeds,
leaves every file untouched and keeps all pre-existing directories. -/
theorem c7_scaffold_dirs (cwd name url : String) :
    mkdirPaths (create_project cwd name url) =
      [ osJoin cwd name ++ "/src",
        osJoin cwd name ++ "/src/controllers",
        osJoin cwd name ++ "/src/routes",
        osJoin cwd name ++ "/src/services",
        osJoin cwd name ++ "/src/middlewares",
        osJoin cwd name ++ "/src/models",
        osJoin cwd name ++ "/src/config",
        osJoin cwd name ++ "/src/utils",
        osJoin cwd name ++ "/prisma",
        osJoin cwd name ++ "/src",
        osJoin cwd name ++ "/src",
        osJoin cwd name ++ "/src/config",
        osJoin cwd name ++ "/src/middlewares",
        osJoin cwd name,
        osJoin cwd name ] ∧
    (∀ fs : Fs, ∃ fs',
      runTrace fs (create_directory_structure (osJoin (osJoin cwd name) "src")) = .ok fs' ∧
      fs'.files = fs.files ∧ ∀ d ∈ fs.dirs, d ∈ fs'.dirs) := by
  constructor
  · have hpr : pyDirname (osJoin (osJoin cwd name) "prisma/schema.prisma") =
        osJoin cwd name ++ "/prisma" := by
      rw [show osJoin (osJoin cwd name) "prisma/schema.prisma" =
          (osJoin cwd name ++ "/prisma") ++ "/" ++ "schema.prisma" from by
        apply String.ext
        simp [osJoin, String.data_append, List.append_assoc]]
      exact pyDirname_join _ _ (by decide)
    have happ : pyDirname (osJoin (osJoin cwd name) "src/app.ts") =
        osJoin cwd name ++ "/src" := by
      rw [show osJoin (osJoin cwd name) "src/app.ts" =
          (osJoin cwd name ++ "/src") ++ "/" ++ "app.ts" from by
        apply String.ext
        simp [osJoin, String.data_append, List.append_assoc]]
      exact pyDirname_join _ _ (by decide)
    have hsrv : pyDirname (osJoin (osJoin cwd name) "src/server.ts") =
        osJoin cwd name ++ "/src" := by
      rw [show osJoin (osJoin cwd name) "src/server.ts" =
          (osJoin cwd name ++ "/src") ++ "/" ++ "server.ts" from by
        apply String.ext
        simp [osJoin, String.data_append, List.append_assoc]]
      exact pyDirname_join _ _ (by decide)
    have hdb : pyDirname (osJoin (osJoin cwd name) "src/config/database.ts") =
        osJoin cwd name ++ "/src/config" := by
      rw [show osJoin (osJoin cwd name) "src/config/database.ts" =
          (osJoin cwd name ++ "/src/config") ++ "/" ++ "database.ts" from by
        apply String.ext
        simp [osJoin, String.data_append, List.append_assoc]]
      exact pyDirname_join _ _ (by decide)
    have herr : pyDirname (osJoin (osJoin cwd name) "src/middlewares/errorHandler.ts") =
        osJoin cwd name ++ "/src/middlewares" := by
      rw [show osJoin (osJoin cwd name) "src/middlewares/errorHandler.ts" =
          (osJoin cwd name ++ "/src/middlewares") ++ "/" ++ "errorHandler.ts" from by
        apply String.ext
        simp [osJoin, String.data_append, List.append_assoc]]
      exact pyDirname_join _ _ (by decide)
    have henv : pyDirname (osJoin (osJoin cwd name) ".env") = osJoin cwd name :=
      pyDirname_join _ _ (by decide)
    have hgit : pyDirname (osJoin (osJoin cwd name) ".gitignore") = osJoin cwd name :=
      pyDirname_join _ _ (by decide)
    simp only [create_project, create_directory_structure, initialize_npm_project,
      setup_typescript, setup_prisma, create_base_files, create_file,
      List.cons_append, List.nil_append, List.append_assoc]
    simp only [mkdirPaths, List.filterMap_cons, List.filterMap_nil]
    rw [hpr, happ, hsrv, hdb, herr, henv, hgit]
    simp [String.ext_iff, String.data_append, List.append_assoc, osJoin]
  · intro fs
    have he : create_directory_structure (osJoin (osJoin cwd name) "src") =
        ([ osJoin (osJoin cwd name) "src",
           osJoin (osJoin (osJoin cwd name) "src") "controllers",
           osJoin (osJoin (osJoin cwd name) "src") "routes",
           osJoin (osJoin (osJoin cwd name) "src") "services",
           osJoin (osJoin (osJoin cwd name) "src") "middlewares",
           osJoin (osJoin (osJoin cwd name) "src") "models",
           osJoin (osJoin (osJoin cwd name) "src") "config",
           osJoin (osJoin (osJoin cwd name) "src") "utils" ]).map .mkdirAll := rfl
    rw [he]
    exact runTrace_map_mkdirAll _ fs

/-- C6: in every generated module the service template exposes exactly five
exported operations (list, get-by-id, create, update, delete), the shared
"not found" sentinel `throw new Error('<Cap> not found')` occurs exactly
three times (in the get-by-id, update and delete bodies, always with the
same message), the controller template exports exactly five corresponding
handlers, and the route template registers exactly the five routes GET /,
GET /:id, POST /, PUT /:id, DELETE /:id, each bound to the matching
controller handler.  The statement filters the template line lists that
`service_content`, `controller_content` and `route_content` are the
`"\n"`-joins of. -/
theorem c6_five_ops_and_routes (m : String) :
    (serviceLines m).filter (fun l => strHasPrefix "export const " l) =
      [ "export const get" ++ (pyCapitalize m ++ "s = async () => \x7b"),
        "export const get" ++ (pyCapitalize m ++ "ById = async (id: number) => \x7b"),
        "export const create" ++ (pyCapitalize m ++ " = async (data: any) => \x7b"),
        "export const update" ++ (pyCapitalize m ++ " = async (id: number, data: any) => \x7b"),
        "export const delete" ++ (pyCapitalize m ++ " = async (id: number) => \x7b") ] ∧
    (serviceLines m).filter (fun l => strHasPrefix "    throw new Error('" l) =
      List.replicate 3 ("    throw new Error('" ++ (pyCapitalize m ++ " not found');")) ∧
    (controllerLines m).filter (fun l => strHasPrefix "export const " l) =
      [ "export const get" ++ (pyCapitalize m ++ "s = async (req: Request, res: Response) => \x7b"),
        "export const get" ++ (pyCapitalize m ++ " = async (req: Request, res: Response) => \x7b"),
        "export const create" ++ (pyCapitalize m ++ " = async (req: Request, res: Response) => \x7b"),
        "export const update" ++ (pyCapitalize m ++ " = async (req: Request, res: Response) => \x7b"),
        "export const delete" ++ (pyCapitalize m ++ " = async (req: Request, res: Response) => \x7b") ] ∧
    (routeLines m).filter (fun l => strHasPrefix "router." l) =
      [ "router.get('/', " ++ (m ++ ("Controller.get" ++ (pyCapitalize m ++ "s);"))),
        "router.get('/:id', " ++ (m ++ ("Controller.get" ++ (pyCapitalize m ++ ");"))),
        "router.post('/', " ++ (m ++ ("Controller.create" ++ (pyCapitalize m ++ ");"))),
        "router.put('/:id', " ++ (m ++ ("Controller.update" ++ (pyCapitalize m ++ ");"))),
        "router.delete('/:id', " ++ (m ++ ("Controller.delete" ++ (pyCapitalize m ++ ");"))) ] := by
  refine ⟨?_, ?_, ?_, ?_⟩ <;>
    simp +decide [serviceLines, controllerLines, routeLines, List.filter_cons,
      strHasPrefix_append_of_le, strHasPrefix_append_of_gt, List.replicate]
